import Mathlib

/-!
Formal model of the document-acquisition and knowledge-base pipeline of the
pedantic-research-assistant repository (a multi-agent research assistant).

The model is a shallow embedding of the Python sources:
  * `src/models.py` — the `Doc`, `SearchResult` records;
  * `src/config.py` — retry and summarization constants;
  * `src/utils/webtools.py` — web search, HTML/PDF fetching with retries;
  * `src/usecase/company_research/utils.py` — `summarize_doc`, `add_doc`;
  * `src/usecase/company_research/agents.py` — the agent tools
    (`fetch_online_doc`, `n_docs_downloaded`, `get_all_docs`, `write_report`);
  * `src/usecase/company_research/models.py` — `WarningTooFewDocs`;
  * `docs/blog/blog_demo.py` — a second, self-contained variant of the same
    pipeline (namespace `BlogDemo` below), which differs from the
    `src/usecase/company_research` variant in a few places noted inline.

External effects (the network, the LLM agents, the clock) are passed in as
explicit function parameters; Python exceptions are modelled with `Except`
over the `PyExc` type; knowledge-base mutation (`deps.docs.append`) is
modelled by state passing: a stateful operation takes the current `List Doc`
and returns the new one together with its Python return value or the Python
exception it raises.
-/

/-- Python exception classes that the modelled code can raise or catch. -/
inductive PyExc where
  /-- Python `TypeError` (e.g. a `str` sliced with a `float` index, or `str`
  concatenated with a non-`str` object). -/
  | typeError
  /-- pydantic `ValidationError` (a required `str` field given `None`). -/
  | validationError
  /-- Python `NameError` (an undefined variable is evaluated). -/
  | nameError
  /-- Python `AssertionError` (a failed `assert`). -/
  | assertionError
  /-- `duckduckgo_search.exceptions.DuckDuckGoSearchException`; the flag
  records whether its message contains `"Ratelimit"`. -/
  | ddgSearchError (isRateLimit : Bool)
deriving Repr, DecidableEq

/-- Python string slicing and `len` operate on code points; we model a Python
`str` as a Lean `String` and `s[:n]` as taking the first `n` characters. -/
def pyTake (s : String) (n : Nat) : String := String.mk (s.data.take n)

/-- Python `s[n:]`: drop the first `n` characters (clamped like Python slices). -/
def pyDrop (s : String) (n : Nat) : String := String.mk (s.data.drop n)

/-- Python `len(s)` for a `str`: the number of code points. -/
def pyLen (s : String) : Nat := s.data.length

/-- Python truthiness of a `str`: `not s` is true exactly when `s` is empty. -/
def pyStrFalsy (s : String) : Bool := s == ""

/-- Python truthiness of an `Optional[str]`: `None` and `""` are falsy. -/
def pyOptStrFalsy : Option String → Bool
  | none => true
  | some s => s == ""

/-- A Python numeric value as used for a slice index: an `int`, or a `float`
(whose exact value is irrelevant to slicing, since any `float` index is
rejected by Python). -/
inductive PyNum where
  | pyint : Nat → PyNum
  | pyfloat : Float → PyNum

/-- Python `s[:i]` with a `PyNum` index: slicing a `str` with a `float` raises
`TypeError: slice indices must be integers`, whatever the float's value. -/
def pySliceTake (s : String) : PyNum → Except PyExc String
  | .pyint n => .ok (pyTake s n)
  | .pyfloat _ => .error .typeError

/-- The object returned by `pydantic_ai.Agent.run`: a run-result wrapper whose
`data` attribute holds the agent's string output.  (The blog variant reads
`run_result.data`; the `usecase` variant forgets to.) -/
structure AgentRunResult where
  data : String
deriving Repr, DecidableEq

/-- Python `str.__add__` applied to an `AgentRunResult` object: concatenating
a `str` with a non-`str` raises `TypeError` (the object defines no `__radd__`). -/
def pyStrAddRunResult (_ : String) (_ : AgentRunResult) : Except PyExc String :=
  .error .typeError

/-- `src/models.py::Doc` — a text document.  `url` is `Optional[str]` with
default `""` in the source; every call site passes a string, so it is a
`String` here.  `Doc.__eq__` is structural equality of (title, url, text),
which is exactly the derived `DecidableEq`. -/
structure Doc where
  title : String
  url : String
  text : String
deriving Repr, DecidableEq

/-- `src/models.py::SearchResult` — one search hit (title, url, excerpt). -/
structure SearchResult where
  title : String
  url : String
  excerpt : String
deriving Repr, DecidableEq

/-- `src/config.py::N_RETRIES = 2`. -/
def N_RETRIES : Nat := 2

/-- `src/config.py::N_PAGE_SUMMARIZE_TRIGGER = 10`. -/
def N_PAGE_SUMMARIZE_TRIGGER : Nat := 10

/-- `MAX_PAGES_SUMMARIZE = 50` (`usecase/company_research/utils.py` and
`blog_demo.py`). -/
def MAX_PAGES_SUMMARIZE : Nat := 50

/-- `usecase/company_research/config.py::N_DOCS_MIN_FOR_REPORT = 3`. -/
def N_DOCS_MIN_FOR_REPORT : Nat := 3

/-- `int(N_PAGE_SUMMARIZE_TRIGGER*500*6.7)` computed inside `add_doc`:
in IEEE-754 doubles `10*500*6.7` evaluates to exactly `33500.0`
(the rounding error of the double nearest 6.7 times 5000 is below half an
ulp at 33500), so `int()` of it is `33500`. -/
def n_char_threshold : Nat := 33500

/-- `int(MAX_PAGES_SUMMARIZE*500*6.7)` computed inside `summarize_doc`:
`50*500*6.7` evaluates to exactly `167500.0` in doubles, so the cap is
`167500` characters. -/
def max_pages_in_char : Nat := 167500

/-- The tail slice that `summarize_doc` will hand to the summarizer agent
(both variants compute it the same way): `doc.text[n_char_threshold:]`,
re-sliced to `[:max_pages_in_char]` when longer than the cap. -/
def text_to_summarize (text : String) (n_char_threshold : Nat) : String :=
  let t := pyDrop text n_char_threshold
  if pyLen t > max_pages_in_char then pyTake t max_pages_in_char else t

/-- The summarization query string both `summarize_doc` variants build from
the document title, the retained first chunk and the (capped) tail. -/
def summarization_query (title first_chunk tail : String) : String :=
  "## Title: " ++ title ++ "\n" ++
    "##First Chunk (not required in summary, for use as context):\n" ++ first_chunk ++ "\n\n" ++
    "## BEGIN SUMMARIZATION\n" ++
    "Please do a one-to-two page extractive summary of the remainder of the document:\n" ++ tail

/-! ### `src/utils/webtools.py` -/

/-- The outcome of one iteration of the `try:` body of `_fetch_online_doc`
(the network fetch plus HTML or PDF extraction for one attempt):
the extracted text on success, a retryable exception
(`ClientResponseError` / `ClientConnectorError`), or any other exception. -/
inductive FetchOutcome where
  | success : String → FetchOutcome
  | retryable : FetchOutcome
  | fatal : FetchOutcome
deriving Repr, DecidableEq

/-- What a run of `_fetch_online_doc` did: the string it returned, how many
attempts (iterations of the try-body) it made, and the sequence of
`asyncio.sleep` delays it performed between consecutive attempts. -/
structure FetchTrace where
  content : String
  attempts : Nat
  sleeps : List Nat
deriving Repr, DecidableEq

/-- The `for attempt in range(N_RETRIES + 1)` loop of `_fetch_online_doc`,
with the per-attempt try-body abstracted into `outcome`.  On success the
content is returned; on a retryable exception with `attempt < N_RETRIES` the
loop sleeps `2 ** attempt` and continues; otherwise (`break`) the loop exits
and the function returns `""`.  `fuel` is the number of loop iterations left
(`N_RETRIES + 1 - attempt`); at `fuel = 0` the range is exhausted and the
final `return ""` runs. -/
def fetchLoop (outcome : Nat → FetchOutcome) : Nat → Nat → FetchTrace
  | _, 0 => ⟨"", 0, []⟩
  | attempt, fuel + 1 =>
    match outcome attempt with
    | .success s => ⟨s, 1, []⟩
    | .fatal => ⟨"", 1, []⟩
    | .retryable =>
      if attempt < N_RETRIES then
        let t := fetchLoop outcome (attempt + 1) fuel
        ⟨t.content, t.attempts + 1, 2 ^ attempt :: t.sleeps⟩
      else ⟨"", 1, []⟩

/-- `webtools.py::_fetch_online_doc` — fetch with retry on network errors. -/
def _fetch_online_doc (outcome : Nat → FetchOutcome) : FetchTrace :=
  fetchLoop outcome 0 (N_RETRIES + 1)

/-- What a run of `_fetch_pdf_content` did to its temporary file: whether the
`tempfile.NamedTemporaryFile(delete=False)` was created, whether it was
deleted before the call exited, and the returned text or raised exception. -/
structure PdfTrace where
  tempCreated : Bool
  tempDeleted : Bool
  result : Except PyExc String
deriving Repr

/-- `webtools.py::_fetch_pdf_content` — download a PDF and extract its text.
`download` abstracts the aiohttp GET + `raise_for_status` + `read` (its error
is a `ClientResponseError`/`ClientConnectorError`, re-raised by the first
`except` clause); `parse` abstracts `pymupdf.open` plus per-page
`get_text` (its error is re-raised by the generic `except Exception`).
The temporary file is created with `delete=False` after a successful
download; the source contains no `os.remove`/`unlink` and no `finally`
block, so no execution path deletes it. -/
def _fetch_pdf_content (download : Except PyExc String)
    (parse : String → Except PyExc (List String)) : PdfTrace :=
  match download with
  | .error e => ⟨false, false, .error e⟩
  | .ok content =>
    match parse content with
    | .error e => ⟨true, false, .error e⟩
    | .ok pages => ⟨true, false, .ok (String.join pages)⟩

/-- The outcome of one attempt of the `try:` body of `_web_search`: a list of
search results, or a `DuckDuckGoSearchException` whose message does or does
not contain `"Ratelimit"`. -/
inductive SearchOutcome where
  | success : List SearchResult → SearchOutcome
  | ddgError (isRateLimit : Bool) : SearchOutcome
deriving Repr, DecidableEq

/-- What a run of `_web_search` did: its value or raised exception, the
number of attempts, and the backoff sleeps performed. -/
structure SearchTrace where
  result : Except PyExc (List SearchResult)
  attempts : Nat
  sleeps : List Nat
deriving Repr

/-- The `for attempt in range(N_RETRIES + 1)` loop of `_web_search`.  The
`except DuckDuckGoSearchException` handler runs
`if "Ratelimit" in str(e) and attempt < n_retries:` — but `n_retries` is an
undefined name (the module constant is `N_RETRIES`), so when the first
conjunct is true (a rate-limit error) evaluating the guard raises
`NameError` out of the handler; only a non-rate-limit error reaches the
`else: raise` that re-raises the original exception.  The retry branch
(`await asyncio.sleep(4*(1+attempt))`) is therefore unreachable.  At
`fuel = 0` the range would be exhausted (unreachable, as every iteration
returns or raises). -/
def webSearchLoop (outcome : Nat → SearchOutcome) : Nat → Nat → SearchTrace
  | _, 0 => ⟨.ok [], 0, []⟩
  | attempt, _fuel + 1 =>
    match outcome attempt with
    | .success rs => ⟨.ok rs, 1, []⟩
    | .ddgError true => ⟨.error .nameError, 1, []⟩
    | .ddgError false => ⟨.error (.ddgSearchError false), 1, []⟩

/-- `webtools.py::_web_search` — DuckDuckGo search with intended retry on
rate limiting. -/
def _web_search (outcome : Nat → SearchOutcome) : SearchTrace :=
  webSearchLoop outcome 0 (N_RETRIES + 1)

/-! ### `src/usecase/company_research` — `utils.py`, `agents.py`, `models.py` -/

namespace CompanyResearch

/-- `utils.py::SNIPPET_LENGTH = 300*6.7` — a Python `float` (≈ 2010.0): the
source does not wrap it in `int()`, unlike the blog variant. -/
def SNIPPET_LENGTH : PyNum := .pyfloat (300 * 6.7)

/-- `utils.py::summarize_doc` — split the document at `n_char_threshold`,
cap the tail, query the summarizer agent, and return head plus summary.
The source returns `first_chunk + "\n" + summary_second_chunk` where
`summary_second_chunk` is the `AgentRunResult` returned by
`summarizer_agent.run` (its `.data` is never taken), so the final
concatenation raises `TypeError`. -/
def summarize_doc (doc : Doc) (n_char_threshold : Nat)
    (summarizer_agent : String → AgentRunResult) : Except PyExc String :=
  let first_chunk := pyTake doc.text n_char_threshold
  let query := summarization_query doc.title first_chunk
    (text_to_summarize doc.text n_char_threshold)
  let summary_second_chunk := summarizer_agent query
  pyStrAddRunResult (first_chunk ++ "\n") summary_second_chunk

/-- `utils.py::add_doc` — add a document to the knowledge base (`docs`).
Empty text is rejected with a "couldn't be retrieved" message; text longer
than `n_char_threshold` is first rewritten by `summarize_doc`; the doc is
then appended, and the success message slices `doc.text[:SNIPPET_LENGTH]`
— a `float` slice index, so building that message raises `TypeError`
(after the append has already happened). -/
def add_doc (docs : List Doc) (doc : Doc)
    (summarizer_agent : String → AgentRunResult) : List Doc × Except PyExc String :=
  if pyStrFalsy doc.text then
    (docs, .ok ("Document " ++ doc.title ++ " - " ++ doc.url ++
      " couldn't be retrieved, ignoring it."))
  else
    let gated : Except PyExc Doc :=
      if pyLen doc.text > n_char_threshold then
        (summarize_doc doc n_char_threshold summarizer_agent).map
          fun t => { doc with text := t }
      else .ok doc
    match gated with
    | .error e => (docs, .error e)
    | .ok doc =>
      let docs := docs ++ [doc]
      match pySliceTake doc.text SNIPPET_LENGTH with
      | .error e => (docs, .error e)
      | .ok snip => (docs, .ok ("Downloaded and added '" ++ doc.url ++
          "' to knowledge base:\nSnippet:'" ++ snip ++ "...'"))

/-- The `url: Union[SearchResult, str]` argument of `fetch_online_doc`. -/
inductive UrlArg where
  | searchResult : SearchResult → UrlArg
  | str : String → UrlArg

/-- `Doc(title=..., url=..., text=...)` as pydantic validates it: `text: str`
is required, so passing `None` (fetch yielded no content and no excerpt was
given) raises a `ValidationError`. -/
def mkDoc (title url : String) (text : Option String) : Except PyExc Doc :=
  match text with
  | some t => .ok { title := title, url := url, text := t }
  | none => .error .validationError

/-- The tail of `fetch_online_doc`: `Doc(title=title, url=url, text=...)`
followed by `await add_doc(ctx.deps, doc)` — a doc-construction error
propagates, otherwise the doc goes to `add_doc`. -/
def mk_and_add_doc (docs : List Doc) (title url : String) (text : Option String)
    (summarizer_agent : String → AgentRunResult) : List Doc × Except PyExc String :=
  match mkDoc title url text with
  | .error e => (docs, .error e)
  | .ok doc => add_doc docs doc summarizer_agent

/-- `agents.py::fetch_online_doc` — the acquisition tool.  A `SearchResult`
argument overrides `title`/`excerpt` and supplies the url; a missing or
empty title defaults to the url; the fetched content (`fetcher url`,
abstracting `_fetch_online_doc`, which returns `""` on failure) falls back
to the excerpt when empty; the constructed `Doc` is handed to `add_doc`.
There is no duplicate check in this variant (unlike `BlogDemo`). -/
def fetch_online_doc (docs : List Doc) (url : UrlArg) (title excerpt : Option String)
    (fetcher : String → String) (summarizer_agent : String → AgentRunResult) :
    List Doc × Except PyExc String :=
  let resolved : Option String × Option String × String :=
    match url with
    | .searchResult sr => (some sr.title, some sr.excerpt, sr.url)
    | .str u => (title, excerpt, u)
  let title := resolved.1
  let excerpt := resolved.2.1
  let url := resolved.2.2
  let title : String :=
    match title with
    | none => url
    | some t => if t == "" then url else t
  let doc_content := fetcher url
  let doc_content : Option String :=
    if doc_content == "" then excerpt else some doc_content
  mk_and_add_doc docs title url doc_content summarizer_agent

/-- `agents.py::n_docs_downloaded` — report the knowledge-base size.  The
final branch's source string lacks the `f` prefix, so `{titles}` appears
literally in the message. -/
def n_docs_downloaded (docs : List Doc) : List Doc × String :=
  let n_docs := docs.length
  if n_docs == 0 then
    (docs, "No webpages or online-documents have been downloaded. Please do some web-searches " ++
      "and fetch some online documents/webpages as preparation for writing the report of " ++
      "the user.")
  else
    let titles := String.intercalate ", " (docs.map Doc.title)
    if n_docs == 1 then
      (docs, "There is 1 webpages/online-documents downloaded. Its title is " ++ titles ++
        ". Please download some more online documents/webpages to support the research request prior " ++
        "to writing the report for the user.")
    else
      (docs, "There have been " ++ toString n_docs ++
        " documents/webpages downloaded and whose text has been extracted. " ++
        "Their titles are {titles}")

/-- `agents.py::get_all_docs` — return the knowledge-base contents. -/
def get_all_docs (docs : List Doc) : List Doc × List Doc := (docs, docs)

/-- `models.py::WarningTooFewDocs` with the message its `model_post_init`
crafts from `n_docs` and `user_intent_long`. -/
structure WarningTooFewDocs where
  user_intent_long : String
  n_docs : Nat
  warning : String
deriving Repr, DecidableEq

/-- `WarningTooFewDocs(user_intent_long=..., n_docs=...)`: construction runs
`model_post_init`, which overwrites `warning` with the crafted message. -/
def mkWarningTooFewDocs (user_intent_long : String) (n_docs : Nat) : WarningTooFewDocs :=
  { user_intent_long := user_intent_long
    n_docs := n_docs
    warning := "There are only " ++ toString n_docs ++
      " documents downloaded to the knowledge base. Please conduct some " ++
      "more web-searches (via `web_search`) and/or download more relevant documents (via `fetch_online_doc`) " ++
      "so that I have enough documents to write a report about: '" ++ user_intent_long ++ "'." }

/-- The value `write_report` produces: either the delegation of the drafting
to the report-writer agent (an external LLM call, recorded here with the
intent and the documents it receives) or a `WarningTooFewDocs`. -/
inductive ReportResult where
  | report : String → List Doc → ReportResult
  | warning : WarningTooFewDocs → ReportResult
deriving Repr, DecidableEq

/-- `agents.py::write_report` — fall back to `user_intent_short` when the
long intent is falsy, `assert user_intent_long`, and return a
`WarningTooFewDocs` when fewer than `N_DOCS_MIN_FOR_REPORT` documents are
in the knowledge base; otherwise delegate to the report-writer agent. -/
def write_report (docs : List Doc) (user_intent_long : String)
    (user_intent_short : Option String) : Except PyExc ReportResult :=
  let user_intent_long :=
    if pyStrFalsy user_intent_long && !pyOptStrFalsy user_intent_short then
      user_intent_short.getD ""
    else user_intent_long
  if pyStrFalsy user_intent_long then .error .assertionError
  else if docs.length < N_DOCS_MIN_FOR_REPORT then
    .ok (.warning (mkWarningTooFewDocs user_intent_long docs.length))
  else
    .ok (.report user_intent_long docs)

end CompanyResearch

/-! ### `docs/blog/blog_demo.py` — the blog variant of the same pipeline -/

namespace BlogDemo

/-- `blog_demo.py::SNIPPET_LENGTH = int(200*6.7) = 1340` — an `int` here
(the `usecase` variant has the bare float `300*6.7`). -/
def SNIPPET_LENGTH : Nat := 1340

/-- `blog_demo.py::summarize_doc` — same split/cap/query as the `usecase`
variant, but the source correctly returns
`first_chunk + "\n" + str(run_result.data)`, so no exception arises. -/
def summarize_doc (doc : Doc) (n_char_threshold : Nat)
    (summarizer_agent : String → AgentRunResult) : String :=
  let first_chunk := pyTake doc.text n_char_threshold
  let query := summarization_query doc.title first_chunk
    (text_to_summarize doc.text n_char_threshold)
  let run_result := summarizer_agent query
  first_chunk ++ "\n" ++ run_result.data

/-- `blog_demo.py::add_doc` — reject empty text, summarize long text, append,
and report success with an `int`-length snippet and the new knowledge-base
size.  No exception can arise in this variant. -/
def add_doc (docs : List Doc) (doc : Doc)
    (summarizer_agent : String → AgentRunResult) : List Doc × String :=
  if pyStrFalsy doc.text then
    (docs, "Document " ++ doc.title ++ " - " ++ doc.url ++
      " couldn't be retrieved, ignoring it.")
  else
    let doc :=
      if pyLen doc.text > n_char_threshold then
        { doc with text := summarize_doc doc n_char_threshold summarizer_agent }
      else doc
    let docs := docs ++ [doc]
    (docs, "Downloaded and added " ++ doc.title ++ " (" ++
      (if doc.url != doc.title then doc.url else "") ++ "). " ++
      "Snippet:'" ++ pyTake doc.text SNIPPET_LENGTH ++ "...'\n" ++
      "There are now " ++ toString docs.length ++ " in knowledge base.")

/-- `blog_demo.py::fetch_online_doc` — like the `usecase` variant but with
two differences: there is no excerpt fallback (an empty fetch stays empty),
and a `Doc` equal (by `Doc.__eq__`) to one already in the knowledge base is
reported as "already in Knowledge Base" without being re-added. -/
def fetch_online_doc (docs : List Doc) (url : CompanyResearch.UrlArg)
    (title _excerpt : Option String) (fetcher : String → String)
    (summarizer_agent : String → AgentRunResult) : List Doc × String :=
  let resolved : Option String × String :=
    match url with
    | .searchResult sr => (some sr.title, sr.url)
    | .str u => (title, u)
  let title := resolved.1
  let url := resolved.2
  let title : String :=
    match title with
    | none => url
    | some t => if t == "" then url else t
  let doc_content := fetcher url
  let doc : Doc := { title := title, url := url, text := doc_content }
  if doc ∈ docs then
    (docs, "Document " ++ doc.title ++ " (" ++ doc.url ++ ") is already in Knowledge Base.")
  else
    add_doc docs doc summarizer_agent

end BlogDemo

/-! ### Helper lemmas -/

/-- One unfolding of the `_fetch_online_doc` retry loop. -/
theorem fetchLoop_step (o : Nat → FetchOutcome) (a f : Nat) :
    fetchLoop o a (f + 1) =
      match o a with
      | .success s => ⟨s, 1, []⟩
      | .fatal => ⟨"", 1, []⟩
      | .retryable =>
        if a < N_RETRIES then
          ⟨(fetchLoop o (a + 1) f).content, (fetchLoop o (a + 1) f).attempts + 1,
            2 ^ a :: (fetchLoop o (a + 1) f).sleeps⟩
        else ⟨"", 1, []⟩ := rfl

/-- One unfolding of the `_web_search` loop. -/
theorem webSearchLoop_step (o : Nat → SearchOutcome) (a f : Nat) :
    webSearchLoop o a (f + 1) =
      match o a with
      | .success rs => ⟨.ok rs, 1, []⟩
      | .ddgError true => ⟨.error .nameError, 1, []⟩
      | .ddgError false => ⟨.error (.ddgSearchError false), 1, []⟩ := rfl

/-- Python slicing never lengthens: `len(s[:n]) = min(n, len(s))`. -/
theorem pyLen_pyTake (s : String) (n : Nat) : pyLen (pyTake s n) = min n (pyLen s) :=
  List.length_take n s.data

/-- `CompanyResearch.add_doc` never puts an empty-text `Doc` into the state. -/
theorem add_doc_text_nonempty (docs : List Doc) (doc : Doc)
    (sa : String → AgentRunResult) (h : ∀ d ∈ docs, d.text ≠ "") :
    ∀ d ∈ (CompanyResearch.add_doc docs doc sa).1, d.text ≠ "" := by
  unfold CompanyResearch.add_doc
  by_cases he : pyStrFalsy doc.text = true
  · simpa [he] using h
  · have hne : doc.text ≠ "" := by simpa [pyStrFalsy] using he
    by_cases hl : pyLen doc.text > n_char_threshold
    · simpa [he, hl, CompanyResearch.summarize_doc, pyStrAddRunResult] using h
    · simp only [he, hl, if_false, if_neg, Bool.false_eq_true]
      simp [hl, CompanyResearch.SNIPPET_LENGTH, pySliceTake]
      intro d hd
      rcases hd with hd | hd
      · exact h d hd
      · subst hd; exact hne

/-- `CompanyResearch.mk_and_add_doc` never puts an empty-text `Doc` into the
state: a `None` text raises before any append, and `add_doc` handles the
rest. -/
theorem mk_and_add_doc_text_nonempty (docs : List Doc) (t u : String)
    (c : Option String) (sa : String → AgentRunResult)
    (h : ∀ d ∈ docs, d.text ≠ "") :
    ∀ d ∈ (CompanyResearch.mk_and_add_doc docs t u c sa).1, d.text ≠ "" := by
  cases c with
  | none => simpa [CompanyResearch.mk_and_add_doc, CompanyResearch.mkDoc] using h
  | some s =>
    have hadd := add_doc_text_nonempty docs ⟨t, u, s⟩ sa h
    simpa [CompanyResearch.mk_and_add_doc, CompanyResearch.mkDoc] using hadd

/-! ### Claims -/

/-- C1, counterexample: in the `src/usecase/company_research` variant of
`fetch_online_doc` there is no duplicate check — re-acquiring a candidate
whose `Doc` (title "t", url "u", text "x") is already in the knowledge base
appends a second, structurally equal `Doc` instead of returning an
"already present" status, so the knowledge base holds two equal docs. -/
theorem claim_C1_counterexample :
    (CompanyResearch.fetch_online_doc [⟨"t", "u", "x"⟩] (.str "u") (some "t") none
      (fun _ => "x") (fun _ => ⟨""⟩)).1 = [⟨"t", "u", "x"⟩, ⟨"t", "u", "x"⟩] := rfl

/-- C1, amended: in the `docs/blog/blog_demo.py` variant of
`fetch_online_doc`, acquiring a candidate whose constructed `Doc`
(title, url, fetched text) already occurs in the knowledge base returns the
"already in Knowledge Base" status and leaves the knowledge base unchanged
(no append, size unchanged). -/
theorem claim_C1_theorem (docs : List Doc) (sr : SearchResult)
    (fetcher : String → String) (sa : String → AgentRunResult)
    (htitle : sr.title ≠ "")
    (hmem : (⟨sr.title, sr.url, fetcher sr.url⟩ : Doc) ∈ docs) :
    BlogDemo.fetch_online_doc docs (.searchResult sr) none none fetcher sa =
      (docs, "Document " ++ sr.title ++ " (" ++ sr.url ++
        ") is already in Knowledge Base.") := by
  unfold BlogDemo.fetch_online_doc
  have ht : (sr.title == "") = false := by simp [htitle]
  simp [ht, hmem]

/-- C1, witness: the amended statement at a concrete knowledge base. -/
theorem claim_C1_witness :
    BlogDemo.fetch_online_doc [⟨"t", "u", "x"⟩] (.searchResult ⟨"t", "u", "e"⟩) none none
      (fun _ => "x") (fun _ => ⟨""⟩) =
      ([⟨"t", "u", "x"⟩], "Document t (u) is already in Knowledge Base.") :=
  claim_C1_theorem [⟨"t", "u", "x"⟩] ⟨"t", "u", "e"⟩ (fun _ => "x") (fun _ => ⟨""⟩)
    (by decide) (by simp)

/-- C2: in `utils.py::summarize_doc` the returned value concatenates the
retained head with the `AgentRunResult` object itself (`.data` is never
taken), which raises `TypeError`; hence `add_doc` on any document longer
than the trigger threshold propagates `TypeError` and stores nothing — the
"stored text preserves the original head" property never gets to hold
because no text is stored at all. -/
theorem claim_C2_bug (docs : List Doc) (doc : Doc) (sa : String → AgentRunResult)
    (h : n_char_threshold < pyLen doc.text) :
    CompanyResearch.add_doc docs doc sa = (docs, .error .typeError) := by
  have hne : doc.text ≠ "" := by
    intro he
    rw [he] at h
    exact absurd h (by decide)
  have hfalsy : pyStrFalsy doc.text = false := by simp [pyStrFalsy, hne]
  unfold CompanyResearch.add_doc
  simp [hfalsy, h, CompanyResearch.summarize_doc, pyStrAddRunResult, Except.map]

/-- C2, witness: a 33501-character document (one character over the
threshold) makes `add_doc` raise `TypeError` and leave the state empty. -/
theorem claim_C2_witness :
    CompanyResearch.add_doc [] ⟨"t", "u", String.mk (List.replicate 33501 'a')⟩
      (fun _ => ⟨""⟩) = ([], .error .typeError) :=
  claim_C2_bug [] ⟨"t", "u", String.mk (List.replicate 33501 'a')⟩ (fun _ => ⟨""⟩)
    (by show n_char_threshold < (List.replicate 33501 'a').length
        rw [List.length_replicate]
        norm_num [n_char_threshold])

/-- C3: `fetch_online_doc` (the `src/usecase/company_research` variant) does
let exceptions propagate.  With a successful fetch ("hello") the document is
appended and then the success message slices with the float
`SNIPPET_LENGTH`, raising `TypeError`; with an empty fetch and no excerpt,
`Doc(text=None)` raises a pydantic `ValidationError`.  Neither call returns
a status string. -/
theorem claim_C3_bug :
    (CompanyResearch.fetch_online_doc [] (.str "http://x") none none
        (fun _ => "hello") (fun _ => ⟨""⟩)) =
      ([⟨"http://x", "http://x", "hello"⟩], .error .typeError) ∧
    (CompanyResearch.fetch_online_doc [] (.str "http://x") none none
        (fun _ => "") (fun _ => ⟨""⟩)).2 = .error .validationError :=
  ⟨rfl, rfl⟩

/-- C4: the `_fetch_online_doc` retry bound.  (i) Facing a retryable network
failure (`ClientResponseError`/`ClientConnectorError`) on every attempt, the
loop makes exactly `N_RETRIES + 1 = 3` attempts, sleeping `2^attempt`
time-units between consecutive attempts (`2^0` then `2^1`), and returns the
empty string without raising.  (ii) A non-retryable exception at attempt `k`
(after retryable failures before it) ends the loop after that attempt — no
further retries — and the call also returns the empty string. -/
theorem claim_C4_theorem :
    (∀ outcome : Nat → FetchOutcome, (∀ i, outcome i = .retryable) →
      _fetch_online_doc outcome = ⟨"", N_RETRIES + 1, [2 ^ 0, 2 ^ 1]⟩) ∧
    (∀ (outcome : Nat → FetchOutcome) (k : Nat), k ≤ N_RETRIES →
      (∀ i, i < k → outcome i = .retryable) → outcome k = .fatal →
      _fetch_online_doc outcome = ⟨"", k + 1, (List.range k).map (fun i => 2 ^ i)⟩) := by
  constructor
  · intro outcome h
    have ho : outcome = fun _ => FetchOutcome.retryable := funext h
    subst ho
    rfl
  · intro outcome k hk h hfat
    have hk2 : k ≤ 2 := hk
    clear hk
    interval_cases k
    · unfold _fetch_online_doc
      rw [fetchLoop_step, hfat]
      rfl
    · unfold _fetch_online_doc
      rw [fetchLoop_step, h 0 (by norm_num)]
      rw [show fetchLoop outcome (0 + 1) N_RETRIES = fetchLoop outcome 1 (1 + 1) from rfl]
      rw [fetchLoop_step, hfat]
      rfl
    · unfold _fetch_online_doc
      rw [fetchLoop_step, h 0 (by norm_num)]
      rw [show fetchLoop outcome (0 + 1) N_RETRIES = fetchLoop outcome 1 (1 + 1) from rfl]
      rw [fetchLoop_step, h 1 (by norm_num)]
      rw [show fetchLoop outcome (1 + 1) 1 = fetchLoop outcome 2 (0 + 1) from rfl]
      rw [fetchLoop_step, hfat]
      rfl

/-- C4, witness: (i) permanent retryable failure gives 3 attempts, sleeps
`[1, 2]`, empty content; (ii) retryable then fatal gives 2 attempts, one
sleep, empty content. -/
theorem claim_C4_witness :
    _fetch_online_doc (fun _ => FetchOutcome.retryable) =
      ⟨"", N_RETRIES + 1, [2 ^ 0, 2 ^ 1]⟩ ∧
    _fetch_online_doc (fun i => if i == 0 then FetchOutcome.retryable else .fatal) =
      ⟨"", 1 + 1, (List.range 1).map (fun i => 2 ^ i)⟩ :=
  ⟨claim_C4_theorem.1 _ (fun _ => rfl),
   claim_C4_theorem.2 _ 1 (by norm_num [N_RETRIES])
     (fun i hi => by
       have h0 : i = 0 := by omega
       subst h0
       rfl)
     rfl⟩

/-- C5: on every path of `_fetch_pdf_content` that creates the temporary
file (i.e. whenever the download succeeds, whether PDF parsing then
succeeds or raises), the file is NOT deleted before the call exits: the
source opens `tempfile.NamedTemporaryFile(delete=False)` and contains no
deletion on any path, so the claimed release guarantee does not hold. -/
theorem claim_C5_bug (download : Except PyExc String)
    (parse : String → Except PyExc (List String)) (content : String)
    (h : download = .ok content) :
    (_fetch_pdf_content download parse).tempCreated = true ∧
    (_fetch_pdf_content download parse).tempDeleted = false := by
  subst h
  unfold _fetch_pdf_content
  rcases hp : parse content with e | pages <;> simp [hp]

/-- C5, witness: a successful download and parse leaves the temporary file
created and not deleted. -/
theorem claim_C5_witness :
    (_fetch_pdf_content (.ok "bytes") (fun _ => .ok ["page"])).tempCreated = true ∧
    (_fetch_pdf_content (.ok "bytes") (fun _ => .ok ["page"])).tempDeleted = false :=
  claim_C5_bug (.ok "bytes") (fun _ => .ok ["page"]) "bytes" rfl

/-- C6: the tail handed to the summarizer agent inside `summarize_doc`
(both variants build their query from `text_to_summarize`) is never longer
than `int(MAX_PAGES_SUMMARIZE*500*6.7) = 167500` characters; everything
past the cap is cut before the query is built. -/
theorem claim_C6_theorem (text : String) (n : Nat) :
    pyLen (text_to_summarize text n) ≤ max_pages_in_char ∧
    max_pages_in_char = 167500 := by
  refine ⟨?_, rfl⟩
  unfold text_to_summarize
  by_cases h : pyLen (pyDrop text n) > max_pages_in_char
  · simp only [h, if_true]
    rw [pyLen_pyTake]
    exact Nat.min_le_left _ _
  · simp only [h, if_false]
    omega

/-- C6, witness: the cap at a concrete document and threshold. -/
theorem claim_C6_witness :
    pyLen (text_to_summarize "abcdef" 2) ≤ max_pages_in_char ∧
    max_pages_in_char = 167500 :=
  claim_C6_theorem "abcdef" 2

/-- C7: `_web_search` never performs its rate-limit retry.  The retry guard
reads the undefined name `n_retries` (the constant is `N_RETRIES`), so a
rate-limit error on the first attempt raises `NameError` after exactly one
attempt with no backoff sleep — not the claimed `N_RETRIES + 1` attempts
with `4*(1+attempt)` delays.  (In `src/utils/webtools.py` the function
cannot even be loaded: its success-path log line holds an f-string with a
lone closing brace, a `SyntaxError`.)  The claim's other half does hold: a
non-rate-limit provider error propagates immediately, unretried. -/
theorem claim_C7_bug :
    (∀ outcome : Nat → SearchOutcome, outcome 0 = .ddgError true →
      _web_search outcome = ⟨.error .nameError, 1, []⟩) ∧
    (∀ outcome : Nat → SearchOutcome, outcome 0 = .ddgError false →
      _web_search outcome = ⟨.error (.ddgSearchError false), 1, []⟩) := by
  constructor <;>
    · intro outcome h
      unfold _web_search
      rw [webSearchLoop_step, h]

/-- C7, witness: both halves at concrete outcome functions. -/
theorem claim_C7_witness :
    _web_search (fun _ => .ddgError true) = ⟨.error .nameError, 1, []⟩ ∧
    _web_search (fun _ => .ddgError false) = ⟨.error (.ddgSearchError false), 1, []⟩ :=
  ⟨claim_C7_bug.1 _ rfl, claim_C7_bug.2 _ rfl⟩

/-- C8, counterexample: with a bare URL, no excerpt, and a fetch that yields
no content, `fetch_online_doc` does not return the "couldn't be retrieved"
status — `Doc(text=None)` raises a pydantic `ValidationError` instead
(nothing is appended). -/
theorem claim_C8_counterexample :
    (CompanyResearch.fetch_online_doc [] (.str "u") none none
      (fun _ => "") (fun _ => ⟨""⟩)) = ([], .error .validationError) := rfl

/-- C8, amended: (i) an acquisition never puts an empty-text `Doc` into the
knowledge base — every doc in the state after `fetch_online_doc` has
non-empty text whenever every doc before had; (ii) when the constructed
`Doc` has empty text, `add_doc` returns the "couldn't be retrieved" status
and appends nothing.  (When there is no content and no excerpt at all, the
call raises a `ValidationError` instead of returning the status — see the
counterexample — but still appends nothing.) -/
theorem claim_C8_theorem :
    (∀ (docs : List Doc) (url : CompanyResearch.UrlArg) (title excerpt : Option String)
      (fetcher : String → String) (sa : String → AgentRunResult),
      (∀ d ∈ docs, d.text ≠ "") →
      ∀ d ∈ (CompanyResearch.fetch_online_doc docs url title excerpt fetcher sa).1,
        d.text ≠ "") ∧
    (∀ (docs : List Doc) (doc : Doc) (sa : String → AgentRunResult), doc.text = "" →
      CompanyResearch.add_doc docs doc sa =
        (docs, .ok ("Document " ++ doc.title ++ " - " ++ doc.url ++
          " couldn't be retrieved, ignoring it."))) := by
  constructor
  · intro docs url title excerpt fetcher sa h
    cases url with
    | searchResult sr => exact mk_and_add_doc_text_nonempty docs _ _ _ sa h
    | str u => exact mk_and_add_doc_text_nonempty docs _ _ _ sa h
  · intro docs doc sa hdoc
    unfold CompanyResearch.add_doc
    simp [pyStrFalsy, hdoc]

/-- C8, witness: (i) a failed fetch whose excerpt is the empty string leaves
the (non-empty-text) knowledge base unchanged; (ii) `add_doc` on an
empty-text doc returns the "couldn't be retrieved" status. -/
theorem claim_C8_witness :
    (∀ d ∈ (CompanyResearch.fetch_online_doc [⟨"a", "ua", "xa"⟩] (.str "u") none (some "")
        (fun _ => "") (fun _ => ⟨""⟩)).1, d.text ≠ "") ∧
    CompanyResearch.add_doc [] ⟨"t", "u", ""⟩ (fun _ => ⟨""⟩) =
      ([], .ok ("Document " ++ "t" ++ " - " ++ "u" ++
        " couldn't be retrieved, ignoring it.")) :=
  ⟨claim_C8_theorem.1 [⟨"a", "ua", "xa"⟩] (.str "u") none (some "")
      (fun _ => "") (fun _ => ⟨""⟩) (by decide),
   claim_C8_theorem.2 [] ⟨"t", "u", ""⟩ (fun _ => ⟨""⟩) rfl⟩

/-- C9: with fewer than `N_DOCS_MIN_FOR_REPORT = 3` documents and a
non-empty research goal, `write_report` returns (not raises) a
`WarningTooFewDocs` whose `n_docs` equals the current document count and
whose `user_intent_long` carries the research goal string. -/
theorem claim_C9_theorem (docs : List Doc) (intent : String) (short : Option String)
    (hintent : intent ≠ "") (hlt : docs.length < N_DOCS_MIN_FOR_REPORT) :
    CompanyResearch.write_report docs intent short =
      .ok (.warning (CompanyResearch.mkWarningTooFewDocs intent docs.length)) ∧
    (CompanyResearch.mkWarningTooFewDocs intent docs.length).n_docs = docs.length ∧
    (CompanyResearch.mkWarningTooFewDocs intent docs.length).user_intent_long = intent := by
  refine ⟨?_, rfl, rfl⟩
  unfold CompanyResearch.write_report
  have h1 : pyStrFalsy intent = false := by simp [pyStrFalsy, hintent]
  simp [h1, hlt]

/-- C9, witness: two documents against a minimum of three yields the warning
carrying `n_docs = 2` and the goal. -/
theorem claim_C9_witness :
    CompanyResearch.write_report [⟨"a", "ua", "xa"⟩, ⟨"b", "ub", "xb"⟩] "goal" none =
      .ok (.warning (CompanyResearch.mkWarningTooFewDocs "goal" 2)) ∧
    (CompanyResearch.mkWarningTooFewDocs "goal" 2).n_docs = 2 ∧
    (CompanyResearch.mkWarningTooFewDocs "goal" 2).user_intent_long = "goal" :=
  claim_C9_theorem [⟨"a", "ua", "xa"⟩, ⟨"b", "ub", "xb"⟩] "goal" none
    (by decide) (by norm_num [N_DOCS_MIN_FOR_REPORT])

/-- C10: the read-only knowledge-base queries do not change the state — the
docs list after `n_docs_downloaded` or `get_all_docs` is the very list
given, and `get_all_docs` returns it as the snapshot. -/
theorem claim_C10_theorem (docs : List Doc) :
    (CompanyResearch.n_docs_downloaded docs).1 = docs ∧
    CompanyResearch.get_all_docs docs = (docs, docs) := by
  refine ⟨?_, rfl⟩
  unfold CompanyResearch.n_docs_downloaded
  by_cases h0 : (docs.length == 0) = true
  · simp [h0]
  · by_cases h1 : (docs.length == 1) = true
    · simp [h0, h1]
    · simp [h0, h1]

/-- C10, witness: the frame property at a concrete two-document state. -/
theorem claim_C10_witness :
    (CompanyResearch.n_docs_downloaded [⟨"a", "ua", "xa"⟩, ⟨"b", "ub", "xb"⟩]).1 =
      [⟨"a", "ua", "xa"⟩, ⟨"b", "ub", "xb"⟩] ∧
    CompanyResearch.get_all_docs [⟨"a", "ua", "xa"⟩, ⟨"b", "ub", "xb"⟩] =
      ([⟨"a", "ua", "xa"⟩, ⟨"b", "ub", "xb"⟩], [⟨"a", "ua", "xa"⟩, ⟨"b", "ub", "xb"⟩]) :=
  claim_C10_theorem [⟨"a", "ua", "xa"⟩, ⟨"b", "ub", "xb"⟩]
